import Mathlib

/-!
Shallow embedding of src/homework.py, a Telegram homework-status bot.

The Python functions send_message, get_api_answer, check_response and
parse_status, and the body of one iteration of the while-True loop in
main, are translated to Lean.  External effects — the HTTP request,
wall-clock time, the Telegram send — are supplied by an oracle
(CycleEnv); log lines and delivered messages are recorded as an explicit
event list.  Python exceptions become the explicit error type PyExc
threaded through Except.

Two pieces of Python 3 runtime semantics matter for this program and are
modelled explicitly:
* raising a str (not a BaseException) makes the interpreter itself raise
  TypeError with message "exceptions must derive from BaseException";
  the formatted string being "raised" is lost (see raiseStr);
* formatting the template RESPONSE_ERROR, whose replacement field is the
  named field "type", with a positional argument raises KeyError("type")
  (see check_response).
-/

/-- Python values as they occur in parsed JSON bodies and homework records. -/
inductive PyVal where
  | str (s : String)
  | int (n : Int)
  | list (xs : List PyVal)
  | dict (kvs : List (String × PyVal))
  | none

/-- Python truthiness, bool(v), for the values of PyVal. -/
def truthy : PyVal → Bool
  | .str s => s ≠ ""
  | .int n => n ≠ 0
  | .list xs => ¬ xs.isEmpty
  | .dict kvs => ¬ kvs.isEmpty
  | .none => false

/-- Python disjunction on values: the first operand if truthy, else the second. -/
def pyOr (a b : PyVal) : PyVal := if truthy a then a else b

/-- Dictionary subscript lookup on an association list. -/
def dictGet (kvs : List (String × PyVal)) (k : String) : Option PyVal :=
  kvs.lookup k

mutual

/-- Python repr(v) for the fragment of values we model. -/
def pyRepr : PyVal → String
  | .str s => "'" ++ s ++ "'"
  | .int n => toString n
  | .list xs => "[" ++ String.intercalate ", " (pyReprList xs) ++ "]"
  | .dict kvs => "\x7b" ++ String.intercalate ", " (pyReprDict kvs) ++ "\x7d"
  | .none => "None"

/-- Reprs of the elements of a Python list. -/
def pyReprList : List PyVal → List String
  | [] => []
  | x :: xs => pyRepr x :: pyReprList xs

/-- Reprs of the key-value pairs of a Python dict. -/
def pyReprDict : List (String × PyVal) → List String
  | [] => []
  | (k, v) :: kvs => ("'" ++ k ++ "': " ++ pyRepr v) :: pyReprDict kvs

end

/-- Python str(v): identity on strings, repr otherwise. -/
def pyStr : PyVal → String
  | .str s => s
  | v => pyRepr v

/-- The Python exceptions this program can raise.  keyError carries the
exception's argument string; typeError carries its message. -/
inductive PyExc where
  | typeError (msg : String)
  | keyError (arg : String)
  | telegramError
  | requestException (msg : String)
deriving DecidableEq, Repr

/-- Python str(e) of an exception, as consulted by string formatting in
main and in the KeyError handlers: str of a KeyError is the repr of its
argument, i.e. the argument in single quotes. -/
def pyExcStr : PyExc → String
  | .typeError m => m
  | .keyError a => "'" ++ a ++ "'"
  | .telegramError => ""
  | .requestException m => m

/-- Message of the TypeError the interpreter raises when the operand of a
raise statement is a str instead of an exception. -/
def raiseStrMsg : String := "exceptions must derive from BaseException"

/-- Python 3 semantics of raising a str: the intended message (the
operand) is discarded and a TypeError is raised in its place. -/
def raiseStr (_intended : String) : PyExc := PyExc.typeError raiseStrMsg

/-- Constant RETRY_TIME from homework.py. -/
def RETRY_TIME : Nat := 600

/-- Constant ENDPOINT from homework.py. -/
def ENDPOINT : String := "https://practicum.yandex.ru/api/user_api/homework_statuses/"

/-- The status-to-verdict mapping HOMEWORK_STATUSES from homework.py. -/
def HOMEWORK_STATUSES : List (String × String) :=
  [("approved", "Работа проверена: ревьюеру всё понравилось. Ура!"),
   ("reviewing", "Работа взята на проверку ревьюером."),
   ("rejected", "Работа проверена: у ревьюера есть замечания.")]

/-- Template SEND_MESSAGE_INFO applied to its message argument. -/
def SEND_MESSAGE_INFO (message : String) : String :=
  "Бот отправил сообщение \"" ++ message ++ "\"."

/-- Template SEND_MESSAGE_ERROR applied to its message argument. -/
def SEND_MESSAGE_ERROR (message : String) : String :=
  "Сбой при отправке сообщения \"" ++ message ++ "\" в Telegram."

/-- Template API_STATUS_CODE_ERROR applied to its code argument. -/
def API_STATUS_CODE_ERROR (code : Nat) : String :=
  "Сбой в работе программы: Код ответа API: " ++ toString code ++ "."

/-- Template API_ERROR with its sole field ENDPOINT filled in, the only
way the program ever formats it. -/
def API_ERROR : String :=
  "Сбой при запросе к эндпоинту: " ++ ENDPOINT ++ "."

/-- Template KEY_ERROR applied to its key argument. -/
def KEY_ERROR (key : String) : String :=
  "Ожидаемый ключ " ++ key ++ " отсутствует в ответе API."

/-- Template RESPONSE_ERROR applied to a type name.  The program only ever
formats this template with a positional argument, which raises KeyError
instead (see check_response); the intended text is kept for reference. -/
def RESPONSE_ERROR (t : String) : String :=
  "В ответе API содержится некорректный тип: " ++ t ++ "."

/-- Constant RESPONSE_DEBUG from homework.py. -/
def RESPONSE_DEBUG : String := "Статус домашних работ не изменился."

/-- Template PARSE_STATUS_ERROR applied to its status and name arguments. -/
def PARSE_STATUS_ERROR (status name : String) : String :=
  "Статус " ++ status ++ " работы \"" ++ name ++ "\" недокументирован."

/-- Template STATUS_VERDICT applied to its name and verdict arguments. -/
def STATUS_VERDICT (name verdict : String) : String :=
  "Изменился статус проверки работы \"" ++ name ++ "\". " ++ verdict

/-- Template COMMON_ERROR applied to the str of the caught exception. -/
def COMMON_ERROR (error : String) : String :=
  "Сбой в работе программы: " ++ error ++ "."

/-- Constant JSON_RESPOND_ERROR from homework.py. -/
def JSON_RESPOND_ERROR : String := "Ответ API не преобразован в json."

/-- Observable events of a run: the HTTP request issued (with the value of
its from_date query parameter), log lines by level, a successfully
delivered Telegram message, and the sleep of the finally clause. -/
inductive Event where
  | request (from_date : PyVal)
  | logError (msg : String)
  | logDebug (msg : String)
  | logInfo (msg : String)
  | send (msg : String)
  | sleep (secs : Nat)

/-- The messages actually delivered to the chat in an event trace. -/
def sentMessages (evs : List Event) : List String :=
  evs.filterMap fun e => match e with
    | .send m => some m
    | _ => Option.none

/-- Outcome of the requests.get call, supplied by the environment: either
a network-level failure (RequestException) or a response with a status
code and a body whose JSON parse either fails or yields a value. -/
inductive HttpOutcome where
  | netFail
  | resp (status : Nat) (body : Except Unit PyVal)

/-- Embedding of send_message.  The bot.send_message call is attempted
first; on success the info line is logged; on TelegramError the error line
is logged and the exception is re-raised.  The argument ok is the oracle's
verdict on the underlying bot.send_message call. -/
def send_message (ok : Bool) (message : String) :
    Except PyExc Unit × List Event :=
  if ok then
    (.ok (), [.send message, .logInfo (SEND_MESSAGE_INFO message)])
  else
    (.error .telegramError, [.logError (SEND_MESSAGE_ERROR message)])

/-- Embedding of get_api_answer.  The timestamp sent as from_date is the
cursor if truthy, else the current wall-clock time now; the request event
records it.  A network failure logs API_ERROR and raises RequestException.
A non-200 status logs API_STATUS_CODE_ERROR and then raises that formatted
string — which Python 3 turns into a TypeError (raiseStr).  A JSON decode
failure likewise raises the string JSON_RESPOND_ERROR, another TypeError.
On success the parsed body is returned unchanged. -/
def get_api_answer (now : Int) (out : HttpOutcome) (current_timestamp : PyVal) :
    Except PyExc PyVal × List Event :=
  let timestamp := pyOr current_timestamp (.int now)
  let reqEv : Event := .request timestamp
  match out with
  | .netFail =>
      (.error (.requestException API_ERROR), [reqEv, .logError API_ERROR])
  | .resp status body =>
      if status ≠ 200 then
        (.error (raiseStr (API_STATUS_CODE_ERROR status)),
         [reqEv, .logError (API_STATUS_CODE_ERROR status)])
      else
        match body with
        | .error _ => (.error (raiseStr JSON_RESPOND_ERROR), [reqEv])
        | .ok v => (.ok v, [reqEv])

/-- Python subscripting by a string key: a dict yields its entry or
raises KeyError carrying the key; any other value raises TypeError
(Python's message is type-dependent; elided to a fixed text). -/
def pySubscript (v : PyVal) (k : String) : Except PyExc PyVal :=
  match v with
  | .dict kvs =>
      match dictGet kvs k with
      | some x => .ok x
      | Option.none => .error (.keyError k)
  | _ => .error (.typeError "object is not subscriptable")

/-- Embedding of check_response.  A KeyError from the homeworks subscript
is caught, logged with the str of that exception substituted into
KEY_ERROR, and re-raised as a KeyError carrying the formatted message; any
other exception (the TypeError from subscripting a non-dict) propagates
unlogged.  When the field is present but not a list, evaluating the
argument of the logging call — RESPONSE_ERROR formatted with a positional
argument against its named field — raises KeyError with argument type
before anything is logged, so the TypeError line below it is never
reached.  An empty list logs RESPONSE_DEBUG at debug level.  On success
the returned Python list is exposed as its element list. -/
def check_response (response : PyVal) : Except PyExc (List PyVal) × List Event :=
  match pySubscript response "homeworks" with
  | .error (.keyError k) =>
      (.error (.keyError (KEY_ERROR (pyExcStr (.keyError k)))),
       [.logError (KEY_ERROR (pyExcStr (.keyError k)))])
  | .error e => (.error e, [])
  | .ok homeworks =>
      match homeworks with
      | .list xs =>
          if xs.isEmpty then (.ok xs, [.logDebug RESPONSE_DEBUG])
          else (.ok xs, [])
      | _ => (.error (.keyError "type"), [])

/-- Embedding of parse_status.  A KeyError from either subscript
(homework_name first, then status) is caught, logged via KEY_ERROR and
re-raised carrying the formatted message; any other exception propagates
unlogged.  The membership test against HOMEWORK_STATUSES is a dict-key
test: only a string key present in the mapping passes.  An unknown status
logs PARSE_STATUS_ERROR and then raises that formatted string — which
Python 3 turns into a TypeError (raiseStr).  On success the verdict is
substituted into STATUS_VERDICT together with the name. -/
def parse_status (homework : PyVal) : Except PyExc String × List Event :=
  match pySubscript homework "homework_name" with
  | .error (.keyError k) =>
      (.error (.keyError (KEY_ERROR (pyExcStr (.keyError k)))),
       [.logError (KEY_ERROR (pyExcStr (.keyError k)))])
  | .error e => (.error e, [])
  | .ok homework_name =>
      match pySubscript homework "status" with
      | .error (.keyError k) =>
          (.error (.keyError (KEY_ERROR (pyExcStr (.keyError k)))),
           [.logError (KEY_ERROR (pyExcStr (.keyError k)))])
      | .error e => (.error e, [])
      | .ok homework_status =>
          match homework_status with
          | .str st =>
              match HOMEWORK_STATUSES.lookup st with
              | some verdict =>
                  (.ok (STATUS_VERDICT (pyStr homework_name) verdict), [])
              | Option.none =>
                  (.error (raiseStr (PARSE_STATUS_ERROR st (pyStr homework_name))),
                   [.logError (PARSE_STATUS_ERROR st (pyStr homework_name))])
          | _ =>
              (.error (raiseStr (PARSE_STATUS_ERROR (pyStr homework_status)
                  (pyStr homework_name))),
               [.logError (PARSE_STATUS_ERROR (pyStr homework_status)
                  (pyStr homework_name))])

/-- The two loop-local variables of main. -/
structure LoopState where
  current_timestamp : PyVal
  last_error : String

/-- External effects of one loop iteration: now stands for the wall-clock
time (consulted only when the cursor is falsy), http for the outcome of
the GET, and sendOk i for the verdict on the i-th bot.send_message call of
the cycle (at most two: one in the try body, one in the except handler). -/
structure CycleEnv where
  now : Int
  http : HttpOutcome
  sendOk : Nat → Bool

/-- How one iteration of the while-True body ends: with ok the try body
and the else clause completed and the loop continues; with caught the
except-Exception handler ran to completion and the loop continues; with
crash an exception escaped the iteration (raised inside the except handler
or the else clause, where nothing catches it), terminating the loop after
the finally sleep. -/
inductive CycleResult where
  | ok (s : LoopState)
  | caught (s : LoopState)
  | crash (e : PyExc) (s : LoopState)

/-- Embedding of the except-Exception handler of main: format the caught
exception into COMMON_ERROR, log it, and if it differs from last_error
send it and remember it.  sendIdx numbers the handler's send_message call
within the cycle.  A failure of that send is re-raised by send_message
inside the handler, where nothing catches it: the iteration crashes. -/
def handleError (env : CycleEnv) (s : LoopState) (sendIdx : Nat) (e : PyExc)
    (evs : List Event) : CycleResult × List Event :=
  if COMMON_ERROR (pyExcStr e) ≠ s.last_error then
    match send_message (env.sendOk sendIdx) (COMMON_ERROR (pyExcStr e)) with
    | (.ok _, evs2) =>
        (.caught ⟨s.current_timestamp, COMMON_ERROR (pyExcStr e)⟩,
         evs ++ [.logError (COMMON_ERROR (pyExcStr e))] ++ evs2)
    | (.error e2, evs2) =>
        (.crash e2 s, evs ++ [.logError (COMMON_ERROR (pyExcStr e))] ++ evs2)
  else
    (.caught s, evs ++ [.logError (COMMON_ERROR (pyExcStr e))])

/-- Embedding of the else clause of the try statement in main, which
assigns the current_date field of the response to the cursor.  An
exception here is not caught by the except handler, so a missing
current_date key crashes the loop with a KeyError. -/
def advanceCursor (s : LoopState) (response : PyVal)
    (evs : List Event) : CycleResult × List Event :=
  match pySubscript response "current_date" with
  | .error e => (.crash e s, evs)
  | .ok v => (.ok ⟨v, s.last_error⟩, evs)

/-- Embedding of the try body of one iteration of the while-True loop in
main: fetch with the current cursor, validate, and if the homework list is
truthy (non-empty) format the status of its first element — element zero
only — and send it.  The result is the first exception raised, or the
response on success, together with the index of the next unused
bot.send_message slot of the cycle and the accumulated events. -/
def tryBody (env : CycleEnv) (s : LoopState) :
    Except PyExc PyVal × Nat × List Event :=
  match get_api_answer env.now env.http s.current_timestamp with
  | (.error e, ev1) => (.error e, 0, ev1)
  | (.ok response, ev1) =>
      match check_response response with
      | (.error e, ev2) => (.error e, 0, ev1 ++ ev2)
      | (.ok homeworks, ev2) =>
          match homeworks with
          | [] => (.ok response, 0, ev1 ++ ev2)
          | hw0 :: _ =>
              match parse_status hw0 with
              | (.error e, ev3) => (.error e, 0, ev1 ++ ev2 ++ ev3)
              | (.ok verdict, ev3) =>
                  match send_message (env.sendOk 0) verdict with
                  | (.error e, ev4) => (.error e, 1, ev1 ++ ev2 ++ ev3 ++ ev4)
                  | (.ok _, ev4) => (.ok response, 1, ev1 ++ ev2 ++ ev3 ++ ev4)

/-- Embedding of one iteration of the while-True body of main: any
exception in the try body goes to the except handler (handleError); on
success the else clause advances the cursor (advanceCursor); the finally
clause sleeps unconditionally. -/
def runCycle (env : CycleEnv) (s : LoopState) : CycleResult × List Event :=
  let r := match tryBody env s with
    | (.error e, idx, evs) => handleError env s idx e evs
    | (.ok response, _, evs) => advanceCursor s response evs
  (r.1, r.2 ++ [.sleep RETRY_TIME])

/-- Log lines at error level in an event trace. -/
def errorLogs (evs : List Event) : List String :=
  evs.filterMap fun e => match e with
    | .logError m => some m
    | _ => Option.none

/-- A concrete approved homework record. -/
def hwApproved : PyVal :=
  .dict [("homework_name", .str "hw1"), ("status", .str "approved")]

/-- A second concrete homework record, rejected. -/
def hwRejected : PyVal :=
  .dict [("homework_name", .str "hw2"), ("status", .str "rejected")]

/-- A concrete record whose status is none of the three known statuses. -/
def hwBogus : PyVal :=
  .dict [("homework_name", .str "hw2"), ("status", .str "bogus")]

/-- The generic failure message produced for a network failure of the GET. -/
def netFailMessage : String := COMMON_ERROR API_ERROR

/-- Loop state with a truthy cursor and no remembered error, as after a
fresh start. -/
def sInit : LoopState := ⟨.int 777, ""⟩

/-- Loop state remembering the network-failure message as last sent. -/
def sAfterError : LoopState := ⟨.int 777, netFailMessage⟩

/-- Environment where the GET fails and every bot.send_message call fails. -/
def envSendFail : CycleEnv := ⟨0, .netFail, fun _ => false⟩

/-- Environment delivering hwApproved and hwRejected with current_date 1000. -/
def envTwoHomeworks : CycleEnv :=
  ⟨999, .resp 200 (.ok (.dict [("homeworks", .list [hwApproved, hwRejected]),
    ("current_date", .int 1000)])), fun _ => true⟩

/-- Environment delivering an empty homework list with current_date 0. -/
def envZeroDate : CycleEnv :=
  ⟨999, .resp 200 (.ok (.dict [("homeworks", .list []),
    ("current_date", .int 0)])), fun _ => true⟩

/-- Environment whose GET fails, at wall-clock time 555; sends succeed. -/
def envNetFail555 : CycleEnv := ⟨555, .netFail, fun _ => true⟩

/-- Environment delivering only hwBogus, with current_date 1. -/
def envBogus : CycleEnv :=
  ⟨9, .resp 200 (.ok (.dict [("homeworks", .list [hwBogus]),
    ("current_date", .int 1)])), fun _ => true⟩

/-- Environment delivering an empty homework list and no current_date key. -/
def envNoDate : CycleEnv :=
  ⟨9, .resp 200 (.ok (.dict [("homeworks", .list [])])), fun _ => true⟩

/-- Closed form of the except handler: branch on deduplication and on the
outcome of the notification send. -/
theorem handleError_eq (env : CycleEnv) (s : LoopState) (idx : Nat)
    (e : PyExc) (evs : List Event) :
    handleError env s idx e evs =
      if COMMON_ERROR (pyExcStr e) ≠ s.last_error then
        if env.sendOk idx then
          (.caught ⟨s.current_timestamp, COMMON_ERROR (pyExcStr e)⟩,
           evs ++ [.logError (COMMON_ERROR (pyExcStr e))]
               ++ [.send (COMMON_ERROR (pyExcStr e)),
                   .logInfo (SEND_MESSAGE_INFO (COMMON_ERROR (pyExcStr e)))])
        else
          (.crash .telegramError s,
           evs ++ [.logError (COMMON_ERROR (pyExcStr e))]
               ++ [.logError (SEND_MESSAGE_ERROR (COMMON_ERROR (pyExcStr e)))])
      else (.caught s, evs ++ [.logError (COMMON_ERROR (pyExcStr e))]) := by
  unfold handleError send_message
  by_cases h : COMMON_ERROR (pyExcStr e) ≠ s.last_error
  · rw [if_pos h, if_pos h]
    cases henv : env.sendOk idx <;> simp [henv]
  · rw [if_neg h, if_neg h]

/-- An iteration whose try body raised is the handler's outcome plus the
final sleep. -/
theorem runCycle_error (env : CycleEnv) (s : LoopState) (e : PyExc)
    (idx : Nat) (evs : List Event)
    (h : tryBody env s = (.error e, idx, evs)) :
    runCycle env s = ((handleError env s idx e evs).1,
      (handleError env s idx e evs).2 ++ [.sleep RETRY_TIME]) := by
  unfold runCycle
  rw [h]

/-- An iteration whose try body succeeded is the else clause's outcome
plus the final sleep. -/
theorem runCycle_success (env : CycleEnv) (s : LoopState) (r : PyVal)
    (idx : Nat) (evs : List Event)
    (h : tryBody env s = (.ok r, idx, evs)) :
    runCycle env s = ((advanceCursor s r evs).1,
      (advanceCursor s r evs).2 ++ [.sleep RETRY_TIME]) := by
  unfold runCycle
  rw [h]

/-- The else clause appends no events of its own. -/
theorem advanceCursor_events (s : LoopState) (r : PyVal) (evs : List Event) :
    (advanceCursor s r evs).2 = evs := by
  unfold advanceCursor
  cases pySubscript r "current_date" <;> rfl

/-- An ok outcome of the else clause pins the new cursor to the response's
current_date value and leaves last_error unchanged. -/
theorem advanceCursor_ok (s : LoopState) (r : PyVal) (evs : List Event)
    (s' : LoopState) (h : (advanceCursor s r evs).1 = .ok s') :
    pySubscript r "current_date" = .ok s'.current_timestamp ∧
    s'.last_error = s.last_error := by
  unfold advanceCursor at h
  cases hp : pySubscript r "current_date" <;> rw [hp] at h <;> simp at h
  rw [← h]
  exact ⟨rfl, rfl⟩

/-- The else clause never yields the caught outcome. -/
theorem advanceCursor_ne_caught (s : LoopState) (r : PyVal) (evs : List Event)
    (s' : LoopState) : (advanceCursor s r evs).1 ≠ .caught s' := by
  unfold advanceCursor
  cases hp : pySubscript r "current_date" <;> simp

/-- The except handler never yields the ok outcome. -/
theorem handleError_ne_ok (env : CycleEnv) (s : LoopState) (idx : Nat)
    (e : PyExc) (evs : List Event) (s' : LoopState) :
    (handleError env s idx e evs).1 ≠ CycleResult.ok s' := by
  rw [handleError_eq]
  by_cases h : COMMON_ERROR (pyExcStr e) ≠ s.last_error
  · rw [if_pos h]
    cases henv : env.sendOk idx <;> simp [henv]
  · rw [if_neg h]
    simp

/-- A network failure of the GET makes the try body raise
RequestException after logging API_ERROR. -/
theorem tryBody_netFail (env : CycleEnv) (s : LoopState)
    (h : env.http = .netFail) :
    tryBody env s = (.error (.requestException API_ERROR), 0,
      [.request (pyOr s.current_timestamp (.int env.now)),
       .logError API_ERROR]) := by
  unfold tryBody get_api_answer
  rw [h]

/-- Every outcome of the fetch records the request event first, with the
from_date parameter equal to the cursor if truthy, else the wall clock. -/
theorem get_api_answer_events (now : Int) (out : HttpOutcome) (ts : PyVal) :
    ∃ t, (get_api_answer now out ts).2 =
      Event.request (pyOr ts (.int now)) :: t := by
  unfold get_api_answer
  cases out with
  | netFail => exact ⟨_, rfl⟩
  | resp status body =>
      dsimp only
      split
      · exact ⟨_, rfl⟩
      · cases body with
        | error _ => exact ⟨_, rfl⟩
        | ok v => exact ⟨_, rfl⟩

/-- The try body's event trace starts with the request event. -/
theorem tryBody_req_head (env : CycleEnv) (s : LoopState) :
    ∃ t, (tryBody env s).2.2 =
      Event.request (pyOr s.current_timestamp (.int env.now)) :: t := by
  obtain ⟨t0, ht0⟩ := get_api_answer_events env.now env.http s.current_timestamp
  unfold tryBody
  rcases hga : get_api_answer env.now env.http s.current_timestamp with ⟨gr, gev⟩
  rw [hga] at ht0
  simp only at ht0
  subst ht0
  cases gr with
  | error e => exact ⟨t0, rfl⟩
  | ok response =>
      dsimp only
      split
      · next e ev2 heq => exact ⟨t0 ++ ev2, by simp⟩
      · next homeworks ev2 heq =>
          split
          · exact ⟨t0 ++ ev2, by simp⟩
          · next hw0 rest =>
              split
              · next e ev3 heq3 => exact ⟨t0 ++ (ev2 ++ ev3), by simp⟩
              · next verdict ev3 heq3 =>
                  split
                  · next e ev4 heq4 => exact ⟨t0 ++ (ev2 ++ (ev3 ++ ev4)), by simp⟩
                  · next u ev4 heq4 => exact ⟨t0 ++ (ev2 ++ (ev3 ++ ev4)), by simp⟩

/-- Every iteration issues its request first: the head of the event trace
is the request event, whose from_date is the cursor if truthy, else the
wall clock. -/
theorem runCycle_events_head (env : CycleEnv) (s : LoopState) :
    ((runCycle env s).2).head? =
      some (.request (pyOr s.current_timestamp (.int env.now))) := by
  obtain ⟨t, ht⟩ := tryBody_req_head env s
  rcases htb : tryBody env s with ⟨r, idx, evs⟩
  rw [htb] at ht
  simp only at ht
  subst ht
  cases r with
  | error e =>
      rw [runCycle_error env s e idx _ htb, handleError_eq]
      by_cases h : COMMON_ERROR (pyExcStr e) ≠ s.last_error
      · rw [if_pos h]
        cases henv : env.sendOk idx <;> simp [henv]
      · rw [if_neg h]
        simp
  | ok response =>
      rw [runCycle_success env s response idx _ htb]
      rw [advanceCursor_events]
      simp

/-- A caught iteration (the except handler ran to completion) leaves the
cursor unchanged. -/
theorem runCycle_caught_cursor (env : CycleEnv) (s : LoopState) (s' : LoopState)
    (h : (runCycle env s).1 = .caught s') :
    s'.current_timestamp = s.current_timestamp := by
  rcases htb : tryBody env s with ⟨r, idx, evs⟩
  cases r with
  | error e =>
      rw [runCycle_error env s e idx evs htb] at h
      simp only at h
      rw [handleError_eq] at h
      by_cases hc : COMMON_ERROR (pyExcStr e) ≠ s.last_error
      · rw [if_pos hc] at h
        cases henv : env.sendOk idx <;> rw [henv] at h <;> simp at h
        subst h
        rfl
      · rw [if_neg hc] at h
        simp at h
        rw [← h]
  | ok response =>
      rw [runCycle_success env s response idx evs htb] at h
      simp only at h
      exact absurd h (advanceCursor_ne_caught s response evs s')

/-- An ok iteration (try body and else clause completed) leaves last_error
unchanged. -/
theorem runCycle_ok_lastError (env : CycleEnv) (s : LoopState) (s' : LoopState)
    (h : (runCycle env s).1 = .ok s') :
    s'.last_error = s.last_error := by
  rcases htb : tryBody env s with ⟨r, idx, evs⟩
  cases r with
  | error e =>
      rw [runCycle_error env s e idx evs htb] at h
      simp only at h
      exact absurd h (handleError_ne_ok env s idx e evs s')
  | ok response =>
      rw [runCycle_success env s response idx evs htb] at h
      simp only at h
      exact (advanceCursor_ok s response evs s' h).2

/-- A successful try body hands the parsed response body, unchanged, to
the else clause. -/
theorem tryBody_ok_body (env : CycleEnv) (s : LoopState) (r : PyVal)
    (idx : Nat) (evs : List Event) (body : PyVal)
    (hhttp : env.http = .resp 200 (.ok body))
    (h : tryBody env s = (.ok r, idx, evs)) : r = body := by
  unfold tryBody get_api_answer at h
  rw [hhttp] at h
  simp only at h
  rw [if_neg (by simp)] at h
  dsimp only at h
  revert h
  split
  · intro h
    simp at h
  · next homeworks ev2 heq =>
      split
      · intro h
        simp at h
        exact h.1.symm
      · next hw0 rest =>
          split
          · intro h
            simp at h
          · intro h
            split at h
            · simp at h
            · simp at h
              exact h.1.symm

/-- An ok iteration pins the new cursor to the response's current_date
value and leaves last_error unchanged. -/
theorem runCycle_ok_state (env : CycleEnv) (s : LoopState) (s' : LoopState)
    (body : PyVal)
    (hhttp : env.http = .resp 200 (.ok body))
    (h : (runCycle env s).1 = .ok s') :
    pySubscript body "current_date" = .ok s'.current_timestamp ∧
    s'.last_error = s.last_error := by
  rcases htb : tryBody env s with ⟨r, idx, evs⟩
  cases r with
  | error e =>
      rw [runCycle_error env s e idx evs htb] at h
      simp only at h
      exact absurd h (handleError_ne_ok env s idx e evs s')
  | ok response =>
      rw [runCycle_success env s response idx evs htb] at h
      simp only at h
      have hr := tryBody_ok_body env s response idx evs body hhttp htb
      subst hr
      exact advanceCursor_ok s response evs s' h

/-- Validation of a response whose homeworks field is a non-empty list
returns its elements, with no events. -/
theorem check_response_cons (kvs : List (String × PyVal)) (hw0 : PyVal)
    (rest : List PyVal)
    (hhw : dictGet kvs "homeworks" = some (.list (hw0 :: rest))) :
    check_response (.dict kvs) = (.ok (hw0 :: rest), []) := by
  unfold check_response pySubscript
  dsimp only
  rw [hhw]
  rfl

/-- Validation of a response whose homeworks field is an empty list
succeeds, logging only the debug line. -/
theorem check_response_nil (kvs : List (String × PyVal))
    (hhw : dictGet kvs "homeworks" = some (.list [])) :
    check_response (.dict kvs) = (.ok [], [.logDebug RESPONSE_DEBUG]) := by
  unfold check_response pySubscript
  dsimp only
  rw [hhw]
  rfl

/-- With a non-empty homework list whose first record parses and whose
notification send succeeds, the try body succeeds having sent exactly the
first record's verdict. -/
theorem tryBody_firstOnly (env : CycleEnv) (s : LoopState)
    (kvs : List (String × PyVal)) (hw0 : PyVal) (rest : List PyVal) (v : String)
    (hhttp : env.http = .resp 200 (.ok (.dict kvs)))
    (hhw : dictGet kvs "homeworks" = some (.list (hw0 :: rest)))
    (hp : parse_status hw0 = (.ok v, []))
    (hsend : env.sendOk 0 = true) :
    tryBody env s = (.ok (.dict kvs), 1,
      [.request (pyOr s.current_timestamp (.int env.now)),
       .send v, .logInfo (SEND_MESSAGE_INFO v)]) := by
  unfold tryBody get_api_answer
  rw [hhttp]
  simp only
  rw [if_neg (by simp)]
  dsimp only
  rw [check_response_cons kvs hw0 rest hhw]
  dsimp only
  rw [hp]
  dsimp only
  unfold send_message
  rw [hsend]
  simp

/-- A cycle whose GET fails, from a state remembering a different error,
notifies the generic failure message and remembers it. -/
theorem runCycle_netFail_fresh (env : CycleEnv) (s : LoopState)
    (h : env.http = .netFail)
    (hne : netFailMessage ≠ s.last_error) (hs : env.sendOk 0 = true) :
    runCycle env s = (.caught ⟨s.current_timestamp, netFailMessage⟩,
      [.request (pyOr s.current_timestamp (.int env.now)), .logError API_ERROR,
       .logError netFailMessage, .send netFailMessage,
       .logInfo (SEND_MESSAGE_INFO netFailMessage), .sleep RETRY_TIME]) := by
  rw [runCycle_error env s _ 0 _ (tryBody_netFail env s h), handleError_eq]
  rw [if_pos (show COMMON_ERROR (pyExcStr (.requestException API_ERROR)) ≠ s.last_error from hne)]
  rw [hs]
  simp [netFailMessage, pyExcStr]

/-- A cycle whose GET fails, from a state already remembering the generic
failure message, logs it again but sends nothing. -/
theorem runCycle_netFail_dup (env : CycleEnv) (s : LoopState)
    (h : env.http = .netFail)
    (heq : s.last_error = netFailMessage) :
    runCycle env s = (.caught s,
      [.request (pyOr s.current_timestamp (.int env.now)), .logError API_ERROR,
       .logError netFailMessage, .sleep RETRY_TIME]) := by
  rw [runCycle_error env s _ 0 _ (tryBody_netFail env s h), handleError_eq]
  rw [if_neg (by simp [pyExcStr, heq, netFailMessage])]
  simp [netFailMessage, pyExcStr]

/-- A cycle whose GET fails, from a state remembering a different error,
crashes when sending the error notification fails, after logging the send
failure. -/
theorem runCycle_netFail_sendFail (env : CycleEnv) (s : LoopState)
    (h : env.http = .netFail)
    (hne : netFailMessage ≠ s.last_error) (hs : env.sendOk 0 = false) :
    runCycle env s = (.crash .telegramError s,
      [.request (pyOr s.current_timestamp (.int env.now)), .logError API_ERROR,
       .logError netFailMessage, .logError (SEND_MESSAGE_ERROR netFailMessage),
       .sleep RETRY_TIME]) := by
  rw [runCycle_error env s _ 0 _ (tryBody_netFail env s h), handleError_eq]
  rw [if_pos (show COMMON_ERROR (pyExcStr (.requestException API_ERROR)) ≠ s.last_error from hne)]
  rw [hs]
  simp [netFailMessage, pyExcStr]

/-- C1, counterexample: in a concrete cycle whose fetch fails and whose
error-notification send also fails, the send failure is logged, but the
iteration ends in a crash — the loop does not proceed to the next cycle,
refuting the claim that a delivery failure during error reporting is
swallowed and never terminates the loop. -/
theorem C1_counterexample_sendFailureDuringErrorReportCrashes :
    (runCycle envSendFail sInit).1 = .crash .telegramError sInit ∧
    (runCycle envSendFail sInit).2 =
      [.request (.int 777), .logError API_ERROR, .logError netFailMessage,
       .logError (SEND_MESSAGE_ERROR netFailMessage), .sleep RETRY_TIME] :=
  ⟨rfl, rfl⟩

/-- C1, amended: when sending the error notification itself fails, the
failure is logged locally, but the exception is re-raised inside the
except handler where nothing catches it, so the iteration crashes and the
loop terminates rather than proceeding to the next cycle. -/
theorem C1_amended_errorReportSendFailureLoggedNotSwallowed
    (env : CycleEnv) (s : LoopState)
    (h : env.http = .netFail)
    (hne : netFailMessage ≠ s.last_error) (hs : env.sendOk 0 = false) :
    (runCycle env s).1 = .crash .telegramError s ∧
    (runCycle env s).2 =
      [.request (pyOr s.current_timestamp (.int env.now)), .logError API_ERROR,
       .logError netFailMessage, .logError (SEND_MESSAGE_ERROR netFailMessage),
       .sleep RETRY_TIME] := by
  rw [runCycle_netFail_sendFail env s h hne hs]
  exact ⟨rfl, rfl⟩

/-- C1, witness for the amended theorem at the concrete crashing cycle. -/
theorem C1_amended_errorReportSendFailureLoggedNotSwallowed_witness :
    (runCycle envSendFail sInit).1 = .crash .telegramError sInit :=
  (C1_amended_errorReportSendFailureLoggedNotSwallowed envSendFail sInit rfl
    (by decide) rfl).1

/-- C2, counterexample: in a successful cycle whose validated list holds
two records, only the first record's verdict is sent; the second record's
verdict is not among the delivered messages, refuting the claim that
every record in the list is formatted and sent. -/
theorem C2_counterexample_secondRecordNotSent :
    sentMessages (runCycle envTwoHomeworks sInit).2 =
      [STATUS_VERDICT "hw1" "Работа проверена: ревьюеру всё понравилось. Ура!"] ∧
    STATUS_VERDICT "hw2" "Работа проверена: у ревьюера есть замечания." ∉
      sentMessages (runCycle envTwoHomeworks sInit).2 := by
  refine ⟨rfl, ?_⟩
  decide

/-- C2, amended: in every successful cycle whose validated list is
non-empty, exactly the first record's verdict is formatted and sent,
regardless of how many records follow. -/
theorem C2_amended_onlyFirstRecordNotified
    (env : CycleEnv) (s : LoopState) (kvs : List (String × PyVal))
    (hw0 : PyVal) (rest : List PyVal) (v : String)
    (hhttp : env.http = .resp 200 (.ok (.dict kvs)))
    (hhw : dictGet kvs "homeworks" = some (.list (hw0 :: rest)))
    (hp : parse_status hw0 = (.ok v, []))
    (hsend : env.sendOk 0 = true) :
    sentMessages (runCycle env s).2 = [v] := by
  rw [runCycle_success env s _ 1 _
    (tryBody_firstOnly env s kvs hw0 rest v hhttp hhw hp hsend)]
  simp only
  rw [advanceCursor_events]
  simp [sentMessages]

/-- C2, witness for the amended theorem at the two-record cycle. -/
theorem C2_amended_onlyFirstRecordNotified_witness :
    sentMessages (runCycle envTwoHomeworks sInit).2 =
      ["Изменился статус проверки работы \"hw1\". Работа проверена: ревьюеру всё понравилось. Ура!"] :=
  C2_amended_onlyFirstRecordNotified envTwoHomeworks sInit _ hwApproved
    [hwRejected] _ rfl rfl rfl rfl

/-- C3: for every non-200 status the fetcher logs the failure naming the
status code, but the raise statement's operand is a str, so the exception
actually raised is the interpreter's TypeError with the constant message
raiseStrMsg — an exception that does not carry the status code, contrary
to the claimed APIStatusError. -/
theorem C3_non200_logsCodeButRaisesBareStringTypeError
    (now : Int) (ts : PyVal) (status : Nat) (body : Except Unit PyVal)
    (h : status ≠ 200) :
    get_api_answer now (.resp status body) ts =
      (.error (.typeError raiseStrMsg),
       [.request (pyOr ts (.int now)), .logError (API_STATUS_CODE_ERROR status)]) := by
  unfold get_api_answer
  dsimp only
  rw [if_pos h]
  rfl

/-- C3, witness at status 404. -/
theorem C3_non200_logsCodeButRaisesBareStringTypeError_witness :
    get_api_answer 5 (.resp 404 (.ok .none)) (.int 777) =
      (.error (.typeError raiseStrMsg),
       [.request (.int 777), .logError (API_STATUS_CODE_ERROR 404)]) :=
  C3_non200_logsCodeButRaisesBareStringTypeError 5 (.int 777) 404 (.ok .none)
    (by decide)

/-- C4: for every response whose homeworks field is present but not a
list, validation fails — but with KeyError carrying the word type, raised
while formatting the intended log message, so nothing is logged and no
type-mismatch error naming the observed type is produced, contrary to the
claim.  It does fail rather than coerce. -/
theorem C4_nonListHomeworks_raisesKeyErrorTypeUnlogged
    (kvs : List (String × PyVal)) (v : PyVal)
    (hv : dictGet kvs "homeworks" = some v)
    (hnl : ∀ xs, v ≠ .list xs) :
    check_response (.dict kvs) = (.error (.keyError "type"), []) := by
  unfold check_response pySubscript
  dsimp only
  rw [hv]
  cases v with
  | list ys => exact absurd rfl (hnl ys)
  | str a => rfl
  | int n => rfl
  | dict d => rfl
  | none => rfl

/-- C4, witness at an int-valued homeworks field. -/
theorem C4_nonListHomeworks_raisesKeyErrorTypeUnlogged_witness :
    dictGet [("homeworks", PyVal.int 42)] "homeworks" = some (.int 42) ∧
    check_response (.dict [("homeworks", .int 42)]) =
      (.error (.keyError "type"), []) :=
  ⟨rfl, C4_nonListHomeworks_raisesKeyErrorTypeUnlogged _ (.int 42) rfl
    (fun _ h => PyVal.noConfusion h)⟩

/-- C5: processing the record with unknown status bogus logs the
unknown-status message and fails — but the raise statement's operand is a
str, so the raised exception is the interpreter's TypeError, not an
unknown-status error; in the full cycle the only delivered message is the
generic failure notification, never a verdict for the record. -/
theorem C5_unknownStatus_failsViaBareStringRaise :
    parse_status hwBogus =
      (.error (.typeError raiseStrMsg),
       [.logError (PARSE_STATUS_ERROR "bogus" "hw2")]) ∧
    sentMessages (runCycle envBogus sInit).2 = [COMMON_ERROR raiseStrMsg] :=
  ⟨rfl, rfl⟩

/-- C6, counterexample: a successful cycle whose response carries
current_date 0 sets the cursor to 0, but the next cycle's request then
uses the wall-clock time 555 as from_date, not the previous response's
current_date 0 — refuting the claim that the cursor used for the next
request always equals the previous current_date rather than wall-clock
time. -/
theorem C6_counterexample_zeroCursorUsesWallClock :
    (runCycle envZeroDate sInit).1 = .ok ⟨.int 0, ""⟩ ∧
    ((runCycle envNetFail555 ⟨.int 0, ""⟩).2).head? = some (.request (.int 555)) ∧
    PyVal.int 555 ≠ PyVal.int 0 := by
  refine ⟨rfl, rfl, ?_⟩
  intro h
  injection h with h'
  exact absurd h' (by decide)

/-- C6, amended: after a successful cycle the cursor variable equals the
response's current_date, and after a handled failure it is unchanged; but
the from_date of a cycle's request equals the cursor only when the cursor
is truthy — a falsy (zero) cursor falls back to wall-clock time. -/
theorem C6_amended_cursorDiscipline (env : CycleEnv) (s : LoopState) :
    (∀ s' kvs d, env.http = .resp 200 (.ok (.dict kvs)) →
        dictGet kvs "current_date" = some d →
        (runCycle env s).1 = .ok s' → s'.current_timestamp = d) ∧
    (∀ s', (runCycle env s).1 = .caught s' →
        s'.current_timestamp = s.current_timestamp) ∧
    ((runCycle env s).2).head? =
      some (.request (if truthy s.current_timestamp then s.current_timestamp
                      else .int env.now)) := by
  refine ⟨?_, ?_, ?_⟩
  · intro s' kvs d hhttp hd h
    have h2 := (runCycle_ok_state env s s' (.dict kvs) hhttp h).1
    unfold pySubscript at h2
    dsimp only at h2
    rw [hd] at h2
    injection h2 with h3
    exact h3.symm
  · exact fun s' h => runCycle_caught_cursor env s s' h
  · exact runCycle_events_head env s

/-- C6, witness for the amended theorem: a successful cycle advancing the
cursor to 1000, a failed cycle preserving it, and the request head of a
cycle with a truthy cursor. -/
theorem C6_amended_cursorDiscipline_witness :
    (LoopState.mk (.int 1000) "").current_timestamp = PyVal.int 1000 ∧
    (LoopState.mk (.int 777) netFailMessage).current_timestamp =
      sInit.current_timestamp ∧
    ((runCycle envTwoHomeworks sInit).2).head? =
      some (.request (if truthy sInit.current_timestamp then sInit.current_timestamp
                      else .int envTwoHomeworks.now)) :=
  ⟨(C6_amended_cursorDiscipline envTwoHomeworks sInit).1 ⟨.int 1000, ""⟩ _
      (.int 1000) rfl rfl rfl,
   (C6_amended_cursorDiscipline envNetFail555 sInit).2.1
      ⟨.int 777, netFailMessage⟩ rfl,
   (C6_amended_cursorDiscipline envTwoHomeworks sInit).2.2⟩

/-- C7: two consecutive cycles failing with the identical error message
(the network-failure message), starting from a state remembering a
different error, send exactly one notification between them — the second
occurrence is suppressed by the last-sent-error comparison — while the
message is written to the error log once per cycle, twice in total. -/
theorem C7_consecutiveIdenticalErrorsDeduplicated
    (s : LoopState) (env1 env2 : CycleEnv)
    (h1 : env1.http = .netFail) (h2 : env2.http = .netFail)
    (hne : netFailMessage ≠ s.last_error) (hs : env1.sendOk 0 = true) :
    (runCycle env1 s).1 = .caught ⟨s.current_timestamp, netFailMessage⟩ ∧
    (runCycle env2 ⟨s.current_timestamp, netFailMessage⟩).1 =
      .caught ⟨s.current_timestamp, netFailMessage⟩ ∧
    sentMessages ((runCycle env1 s).2 ++
      (runCycle env2 ⟨s.current_timestamp, netFailMessage⟩).2) = [netFailMessage] ∧
    errorLogs ((runCycle env1 s).2 ++
      (runCycle env2 ⟨s.current_timestamp, netFailMessage⟩).2) =
      [API_ERROR, netFailMessage, API_ERROR, netFailMessage] := by
  rw [runCycle_netFail_fresh env1 s h1 hne hs,
      runCycle_netFail_dup env2 ⟨s.current_timestamp, netFailMessage⟩ h2 rfl]
  refine ⟨rfl, rfl, ?_, ?_⟩
  · simp [sentMessages]
  · simp [errorLogs]

/-- C7, witness at two concrete failing cycles. -/
theorem C7_consecutiveIdenticalErrorsDeduplicated_witness :
    (runCycle envNetFail555 sInit).1 = .caught ⟨.int 777, netFailMessage⟩ ∧
    sentMessages ((runCycle envNetFail555 sInit).2 ++
      (runCycle envNetFail555 ⟨.int 777, netFailMessage⟩).2) = [netFailMessage] :=
  ⟨(C7_consecutiveIdenticalErrorsDeduplicated sInit envNetFail555 envNetFail555
      rfl rfl (by decide) rfl).1,
   (C7_consecutiveIdenticalErrorsDeduplicated sInit envNetFail555 envNetFail555
      rfl rfl (by decide) rfl).2.2.1⟩

/-- C8: for every record carrying a name and one of the three known
statuses, the formatted verdict is the fixed prefix, the name, and the
exact canonical verdict text; on the concrete approved record the full
Russian notification string results. -/
theorem C8_verdictFormatting :
    (∀ kvs name status verdict,
        dictGet kvs "homework_name" = some (.str name) →
        dictGet kvs "status" = some (.str status) →
        HOMEWORK_STATUSES.lookup status = some verdict →
        parse_status (.dict kvs) =
          (.ok ("Изменился статус проверки работы \"" ++ name ++ "\". " ++ verdict), [])) ∧
    parse_status hwApproved =
      (.ok "Изменился статус проверки работы \"hw1\". Работа проверена: ревьюеру всё понравилось. Ура!", []) := by
  constructor
  · intro kvs name status verdict hn hs hv
    unfold parse_status pySubscript
    dsimp only
    rw [hn]
    dsimp only
    rw [hs]
    dsimp only
    rw [hv]
    rfl
  · rfl

/-- C8, witness at the approved record. -/
theorem C8_verdictFormatting_witness :
    parse_status (.dict [("homework_name", .str "hw1"), ("status", .str "approved")]) =
      (.ok ("Изменился статус проверки работы \"" ++ "hw1" ++ "\". " ++
        "Работа проверена: ревьюеру всё понравилось. Ура!"), []) :=
  C8_verdictFormatting.1 _ "hw1" "approved" _ rfl rfl rfl

/-- C9: a cycle that completes without error leaves the last-sent-error
value unchanged, so a later failing cycle whose message equals the
remembered value is still suppressed even after intervening successful
cycles: it delivers no message at all. -/
theorem C9_lastErrorSurvivesSuccessfulCycle
    (env : CycleEnv) (s : LoopState) (s' : LoopState)
    (h : (runCycle env s).1 = .ok s') :
    s'.last_error = s.last_error ∧
    (∀ env2 : CycleEnv, env2.http = .netFail → s.last_error = netFailMessage →
      sentMessages (runCycle env2 s').2 = []) := by
  refine ⟨runCycle_ok_lastError env s s' h, ?_⟩
  intro env2 h2 hle
  have hl : s'.last_error = netFailMessage :=
    (runCycle_ok_lastError env s s' h).trans hle
  rw [runCycle_netFail_dup env2 s' h2 hl]
  rfl

/-- C9, witness: a successful cycle from a state remembering the
network-failure message, followed by a failing cycle that sends nothing. -/
theorem C9_lastErrorSurvivesSuccessfulCycle_witness :
    (LoopState.mk (.int 1000) netFailMessage).last_error = sAfterError.last_error ∧
    sentMessages (runCycle envNetFail555
      (LoopState.mk (.int 1000) netFailMessage)).2 = [] := by
  have H := C9_lastErrorSurvivesSuccessfulCycle envTwoHomeworks sAfterError
    ⟨.int 1000, netFailMessage⟩ rfl
  exact ⟨H.1, H.2 envNetFail555 rfl rfl⟩

/-- C10: a response whose homeworks field is a valid list but which lacks
the current_date key passes validation and completes the try body, so the
cursor-advance in the else clause raises KeyError on current_date outside
the protected region; nothing catches it and the iteration crashes,
terminating the loop. -/
theorem C10_missingCurrentDateCrashesLoop (env : CycleEnv) (s : LoopState)
    (kvs : List (String × PyVal)) (xs : List PyVal)
    (hhttp : env.http = .resp 200 (.ok (.dict kvs)))
    (hhw : dictGet kvs "homeworks" = some (.list xs))
    (hnocd : dictGet kvs "current_date" = Option.none)
    (hbody : xs = [] ∨ ∃ hw0 rest v, xs = hw0 :: rest ∧
        parse_status hw0 = (.ok v, []) ∧ env.sendOk 0 = true) :
    (runCycle env s).1 = .crash (.keyError "current_date") s := by
  rcases hbody with hnil | ⟨hw0, rest, v, hcons, hp, hsendT⟩
  · subst hnil
    have htb : tryBody env s = (.ok (.dict kvs), 0,
        [.request (pyOr s.current_timestamp (.int env.now)),
         .logDebug RESPONSE_DEBUG]) := by
      unfold tryBody get_api_answer
      rw [hhttp]
      simp only
      rw [if_neg (by simp)]
      dsimp only
      rw [check_response_nil kvs hhw]
      rfl
    rw [runCycle_success env s _ 0 _ htb]
    simp only
    unfold advanceCursor pySubscript
    dsimp only
    rw [hnocd]
  · subst hcons
    have htb := tryBody_firstOnly env s kvs hw0 rest v hhttp hhw hp hsendT
    rw [runCycle_success env s _ 1 _ htb]
    simp only
    unfold advanceCursor pySubscript
    dsimp only
    rw [hnocd]

/-- C10, witness at a concrete response lacking current_date. -/
theorem C10_missingCurrentDateCrashesLoop_witness :
    (runCycle envNoDate sInit).1 = .crash (.keyError "current_date") sInit :=
  C10_missingCurrentDateCrashesLoop envNoDate sInit _ [] rfl rfl rfl (Or.inl rfl)
